import Mathlib

/-!
Verification of the search-state / URL-synchronization logic of
`src/components/LandingPage.tsx` (the `LandingPage` component).

The component's only state-bearing logic is: the `handleSearch` function
(lines 86-114), the URL-parameter helpers `hasSearchParams` (lines 50-58),
`performInitialSearch` (lines 61-77) and the `useEffect` on `searchParams`
(lines 80-84), and the render guards `showCenteredSearch` (line 117), the
results panel (line 173) and the intro/post-list block (line 182).  This file
embeds those pieces as pure Lean functions and proves the specified
properties about them.
-/

/-- Stand-in for the opaque `SearchResult` record returned by the search
endpoint (`@/components/search/SearchResult`); its shape is owned by that
external collaborator, so a single opaque field suffices here. -/
structure SearchResult where
  payload : Nat
deriving DecidableEq

/-- The `SearchParams` interface of `LandingPage.tsx` (lines 27-33):
`query` is a plain string, the four optional filters are
`string | null | undefined`, embedded as `Option String` with `none`
standing for both `null` and `undefined`. -/
structure SearchParams where
  query : String
  domain : Option String
  tag : Option String
  year : Option String
  region : Option String
deriving DecidableEq

/-- JavaScript truthiness of a `string | null | undefined` value: `null`,
`undefined` and the empty string are falsy, every other string is truthy. -/
def truthy : Option String → Bool
  | none => false
  | some s => s != ""

/-- The `URLSearchParams` built in `handleSearch` (lines 93-99).  The object
literal always carries `term: query`, while each optional filter is added by
an object spread `...(x && \x7b x \x7d)` which contributes the key only when
the value is truthy (non-null, non-undefined and non-empty). -/
def buildParams (p : SearchParams) : List (String × String) :=
  [("term", p.query)]
    ++ (if truthy p.domain then [("domain", p.domain.getD "")] else [])
    ++ (if truthy p.tag then [("tag", p.tag.getD "")] else [])
    ++ (if truthy p.year then [("year", p.year.getD "")] else [])
    ++ (if truthy p.region then [("region", p.region.getD "")] else [])

/-- Serialization of the parameter list, as `URLSearchParams.toString`
produces `k1=v1&k2=v2&...`; percent-encoding is the identity on the plain
ASCII key and value characters appearing in this development. -/
def toQueryString (ps : List (String × String)) : String :=
  String.intercalate "&" (ps.map fun kv => kv.1 ++ "=" ++ kv.2)

/-- The component's search-related `useState` fields
(`LandingPage.tsx` lines 40-43). -/
structure SearchState where
  isSearching : Bool
  error : Option String
  results : List SearchResult
  hasSearched : Bool
deriving DecidableEq

/-- State on page load: `useState(false)`, `useState<string|null>(null)`,
`useState<SearchResult[]>([])`, `useState(false)` (lines 40-43). -/
def initialState : SearchState :=
  { isSearching := false, error := none, results := [], hasSearched := false }

/-- Model of the Next.js App Router obtained from `useRouter()`.  Per the
framework's documented semantics, `router.push(href, opts)` performs a
client-side navigation that adds a new entry onto the browser history stack
(`history` head is the current location), and the `scroll` option decides
whether the navigation scrolls the viewport to the top (`scroll: false`
preserves the scroll position). -/
structure Router where
  history : List String
  scrolledOnLastNav : Bool
deriving DecidableEq

/-- Next.js `router.push`: the new location becomes current, the old stack is
kept beneath it, and the viewport scrolls only if `scroll` is true. -/
def Router.push (r : Router) (url : String) (scroll : Bool) : Router :=
  { history := url :: r.history, scrolledOnLastNav := scroll }

/-- Outcome of the `fetch` to the search endpoint inside `handleSearch`:
a 2xx response whose body parses to a `SearchResult[]`, a non-2xx response
(`response.ok` false at line 104), or an exception thrown by `fetch` or by
`response.json()` (network failure, parse failure). -/
inductive FetchOutcome
  | success (data : List SearchResult)
  | httpError
  | exception
deriving DecidableEq

/-- The generic user-facing failure message set at line 110. -/
def searchFailedMessage : String := "Search failed. Please try again."

/-- Synchronous prefix of `handleSearch` (lines 87-90): clear the error, set
`isSearching`, clear the results, and mark that a search has been attempted.
These four `setState` calls run before the `await` suspension point. -/
def handleSearchStart (s : SearchState) : SearchState :=
  { s with error := none, isSearching := true, results := [], hasSearched := true }

/-- Settling suffix of `handleSearch` (lines 103-113): on success the parsed
list replaces `results`; a non-2xx response throws (line 105) and, like any
other exception, lands in the `catch` which sets the generic error message;
the `finally` clears `isSearching` in every case. -/
def handleSearchSettle (s : SearchState) (o : FetchOutcome) : SearchState :=
  let settled :=
    match o with
    | FetchOutcome.success data => { s with results := data }
    | FetchOutcome.httpError => { s with error := some searchFailedMessage }
    | FetchOutcome.exception => { s with error := some searchFailedMessage }
  { settled with isSearching := false }

/-- Combined component state: the search `useState` fields plus the router. -/
structure PageState where
  search : SearchState
  router : Router
deriving DecidableEq

/-- One complete `handleSearch` invocation (lines 86-114) from call to
settling, with `o` the outcome of the fetch: the synchronous start phase,
the `router.push` of the canonical query-string with `scroll: false`
(line 101), and the settle phase. -/
def handleSearch (s : PageState) (p : SearchParams) (o : FetchOutcome) : PageState :=
  { search := handleSearchSettle (handleSearchStart s.search) o,
    router := s.router.push ("/?" ++ toQueryString (buildParams p)) false }

/-- The values `useSearchParams().get` returns for the five recognized keys:
`none` when the key is absent from the URL, `some v` when it is present with
value `v` (so `some ""` for a present-but-empty parameter such as `?term=`). -/
structure UrlParams where
  term : Option String
  domain : Option String
  tag : Option String
  year : Option String
  region : Option String
deriving DecidableEq

/-- The `hasSearchParams` helper (lines 50-58): `Boolean` of the `||` chain
of the five `searchParams.get` values under JavaScript truthiness. -/
def hasSearchParams (u : UrlParams) : Bool :=
  truthy u.term || truthy u.domain || truthy u.tag || truthy u.year || truthy u.region

/-- JavaScript `x || undefined` on a `string | null` value, applied to the
four optional filters in `performInitialSearch` (lines 71-74): `null` and
the empty string collapse to `undefined`. -/
def orUndefined : Option String → Option String
  | none => none
  | some s => if s == "" then none else some s

/-- The `performInitialSearch` function (lines 61-77): read the five
parameters from the URL; if any is truthy, call `handleSearch` with
`query || ''` for the text and `x || undefined` for each optional filter;
otherwise trigger nothing.  The returned value is the argument of the
triggered `handleSearch` call (`none` when no search is triggered). -/
def performInitialSearch (u : UrlParams) : Option SearchParams :=
  if truthy u.term || truthy u.domain || truthy u.tag || truthy u.year || truthy u.region then
    some { query := u.term.getD "", domain := orUndefined u.domain,
           tag := orUndefined u.tag, year := orUndefined u.year,
           region := orUndefined u.region }
  else
    none

/-- The `useEffect` on `searchParams` (lines 80-84), running on mount and on
every change of the URL query parameters: when `hasSearchParams()` it runs
`performInitialSearch`, otherwise it does nothing. -/
def initializeFromLocation (u : UrlParams) : Option SearchParams :=
  if hasSearchParams u then performInitialSearch u else none

/-- The `showCenteredSearch` flag (line 117):
`!hasSearched && !hasSearchParams()`. -/
def showCenteredSearch (s : SearchState) (u : UrlParams) : Bool :=
  !s.hasSearched && !hasSearchParams u

/-- Render guard of the search-results panel (line 173): the panel with
`SearchResults results error` is mounted exactly when `hasSearchParams()`.
The state argument records that the surrounding render has the search state
in scope; the guard itself does not consult it. -/
def showResultsPanel (_s : SearchState) (u : UrlParams) : Bool :=
  hasSearchParams u

/-- Render guard of the introductory section and the post list (line 182):
`showCenteredSearch || (results.length === 0 && !isSearching)`. -/
def showIntroAndPosts (s : SearchState) (u : UrlParams) : Bool :=
  showCenteredSearch s u || (s.results.length == 0 && !s.isSearching)

/-- Atomic state updates of the component around the `await` suspension
point of `handleSearch`: the synchronous start of a call and its settling
continuation.  A full call contributes the trace `[start p, settle o]`;
overlapping calls interleave their traces on the single-threaded event
loop. -/
inductive SearchEvent
  | start (p : SearchParams)
  | settle (o : FetchOutcome)
deriving DecidableEq

/-- Apply one atomic update to the search state. -/
def applyEvent (s : SearchState) : SearchEvent → SearchState
  | SearchEvent.start _ => handleSearchStart s
  | SearchEvent.settle o => handleSearchSettle s o

/-- Apply a sequence of atomic updates in order. -/
def applyEvents (s : SearchState) (l : List SearchEvent) : SearchState :=
  List.foldl applyEvent s l

/-- The list `zs` is an order-preserving interleaving of `xs` and `ys`. -/
inductive Interleave {α : Type} : List α → List α → List α → Prop
  | nil : Interleave [] [] []
  | left {x : α} {xs ys zs : List α} :
      Interleave xs ys zs → Interleave (x :: xs) ys (x :: zs)
  | right {y : α} {xs ys zs : List α} :
      Interleave xs ys zs → Interleave xs (y :: ys) (y :: zs)

/-! Helper lemmas. -/

/-- Interleaving with an empty left list is the right list. -/
theorem interleave_nil_left {α : Type} :
    ∀ {ys zs : List α}, Interleave [] ys zs → zs = ys
  | _, _, Interleave.nil => rfl
  | _, _, Interleave.right h => congrArg _ (interleave_nil_left h)

/-- Interleaving with an empty right list is the left list. -/
theorem interleave_nil_right {α : Type} :
    ∀ {xs zs : List α}, Interleave xs [] zs → zs = xs
  | _, _, Interleave.nil => rfl
  | _, _, Interleave.left h => congrArg _ (interleave_nil_right h)

/-- The settle phase always leaves `isSearching` false (the `finally`). -/
theorem handleSearchSettle_isSearching (s : SearchState) (o : FetchOutcome) :
    (handleSearchSettle s o).isSearching = false := rfl

/-- The settle phase never touches `hasSearched`. -/
theorem handleSearchSettle_hasSearched (s : SearchState) (o : FetchOutcome) :
    (handleSearchSettle s o).hasSearched = s.hasSearched := by
  cases o <;> rfl

/-- A full `handleSearch` call is its start phase followed by its settle
phase, acting on the search fields. -/
theorem handleSearch_eq_events (s : PageState) (p : SearchParams) (o : FetchOutcome) :
    (handleSearch s p o).search
      = applyEvents s.search [SearchEvent.start p, SearchEvent.settle o] := rfl

/-- Truthiness of an optional string, spelled out. -/
theorem truthy_iff (x : Option String) :
    truthy x = true ↔ ∃ v, x = some v ∧ v ≠ "" := by
  cases x with
  | none => simp [truthy]
  | some s =>
    simp only [truthy, bne_iff_ne, ne_eq, Option.some.injEq]
    constructor
    · intro h
      exact ⟨s, rfl, h⟩
    · rintro ⟨v, rfl, hv⟩
      exact hv

/-! Claim theorems. -/

/-- C1 fails as stated: with an empty search text and a domain filter, the
parameter list built by `handleSearch` contains the empty-valued pair
`term=`, so the query-string serialized for the URL and the request does
carry an empty-valued entry for the search text. -/
theorem buildParams_empty_term_counterexample :
    ("term", "")
        ∈ buildParams
            { query := "", domain := some "history", tag := none, year := none, region := none }
      ∧ toQueryString
            (buildParams
              { query := "", domain := some "history", tag := none, year := none, region := none })
          = "term=&domain=history" :=
  ⟨by decide, rfl⟩

/-- C1 (amended): the built query carries exactly the recognized keys, the
optional filters (domain, tag, year, region) appear only with their non-empty
values and are omitted entirely when empty, null, undefined or absent — but
`term` is always serialized with the search text, even when that text is
empty. -/
theorem buildParams_omits_empty_optional_fields (p : SearchParams) :
    (("term", p.query) ∈ buildParams p)
    ∧ (∀ kv ∈ buildParams p, kv.1 = "term" ∨ kv.2 ≠ "")
    ∧ (truthy p.domain = false → ∀ v, ("domain", v) ∉ buildParams p)
    ∧ (truthy p.tag = false → ∀ v, ("tag", v) ∉ buildParams p)
    ∧ (truthy p.year = false → ∀ v, ("year", v) ∉ buildParams p)
    ∧ (truthy p.region = false → ∀ v, ("region", v) ∉ buildParams p) := by
  obtain ⟨q, d, t, y, r⟩ := p
  refine ⟨by simp [buildParams], ?_, ?_, ?_, ?_, ?_⟩
  · intro kv hkv
    simp only [buildParams, List.mem_append, List.mem_singleton] at hkv
    rcases hkv with ((((h | h) | h) | h) | h)
    · left; rw [h]
    all_goals
      right
      split at h <;> simp_all [truthy, Option.getD]
      cases_type* Option <;> simp_all
  all_goals
    intro htr v hv
    simp only [buildParams, List.mem_append, List.mem_singleton] at hv
    rcases hv with ((((h | h) | h) | h) | h) <;>
      first
        | (injection h with h1 h2; exact absurd h1 (by decide))
        | (split at h <;> simp_all)

/-- C1 witness: at a concrete input with an empty year filter, the amended
theorem yields that no `year` pair is serialized. -/
theorem buildParams_omits_empty_optional_fields_witness :
    ("year", "")
      ∉ buildParams
          { query := "w", domain := some "x", tag := none, year := some "", region := none } :=
  (buildParams_omits_empty_optional_fields
      { query := "w", domain := some "x", tag := none, year := some "", region := none }).2.2.2.2.1
    (by decide) ""

/-- C2: every single `handleSearch` call, whatever the outcome of the fetch
(success, non-2xx response, or thrown exception), ends with `isSearching`
false — the `finally` block runs in all three cases. -/
theorem handleSearch_isSearching_false (s : PageState) (p : SearchParams) (o : FetchOutcome) :
    (handleSearch s p o).search.isSearching = false := rfl

/-- C3: a non-2xx response and a thrown exception produce identical final
states; in both, `error` is exactly "Search failed. Please try again." and
`results` is empty. -/
theorem failure_outcomes_identical (s : PageState) (p : SearchParams) :
    handleSearch s p FetchOutcome.httpError = handleSearch s p FetchOutcome.exception
    ∧ (handleSearch s p FetchOutcome.httpError).search.error
        = some "Search failed. Please try again."
    ∧ (handleSearch s p FetchOutcome.httpError).search.results = [] :=
  ⟨rfl, rfl, rfl⟩

/-- C4 fails as stated: a search navigates with `router.push`, which adds a
new navigation-history entry — here the history grows from one entry to two. -/
theorem routerPush_adds_history_entry :
    (handleSearch
        { search := initialState, router := { history := ["/"], scrolledOnLastNav := false } }
        { query := "foo", domain := none, tag := none, year := some "2020", region := none }
        (FetchOutcome.success [])).router.history
      = ["/?term=foo&year=2020", "/"] := rfl

/-- C4 (amended): every `handleSearch` invocation updates the browser
location to the canonical query-string without scrolling the viewport, by
pushing one new navigation-history entry (`router.push` with
`scroll: false`). -/
theorem handleSearch_updates_location (s : PageState) (p : SearchParams) (o : FetchOutcome) :
    (handleSearch s p o).router.history
        = ("/?" ++ toQueryString (buildParams p)) :: s.router.history
    ∧ (handleSearch s p o).router.scrolledOnLastNav = false :=
  ⟨rfl, rfl⟩

/-- The text passed to the triggered search: `query || ''` keeps a non-empty
term value and collapses an absent or empty one to the empty string. -/
theorem getD_empty_eq_if (x : Option String) :
    x.getD "" = if truthy x = true then x.getD "" else "" := by
  cases x with
  | none => simp [truthy]
  | some s =>
    by_cases h : s = "" <;> simp [truthy, h]

/-- The filter passed to the triggered search: `x || undefined` keeps a
non-empty value and collapses an absent or empty one to `undefined`. -/
theorem orUndefined_eq_if (x : Option String) :
    orUndefined x = if truthy x = true then x else none := by
  cases x with
  | none => simp [truthy, orUndefined]
  | some s =>
    by_cases h : s = "" <;> simp [truthy, orUndefined, h]

/-- C5: on mount and on every change of the URL query parameters, if none of
the five recognized parameters carries a (non-empty) value the effect
triggers no search, and if at least one does, a search is triggered whose
argument holds exactly the present parameters — the term value (or the empty
text when no term is present) and each optional filter only when present. -/
theorem initializeFromLocation_exactly_present (u : UrlParams) :
    ((truthy u.term = true ∨ truthy u.domain = true ∨ truthy u.tag = true
        ∨ truthy u.year = true ∨ truthy u.region = true)
      → initializeFromLocation u
          = some { query := if truthy u.term = true then u.term.getD "" else "",
                   domain := if truthy u.domain = true then u.domain else none,
                   tag := if truthy u.tag = true then u.tag else none,
                   year := if truthy u.year = true then u.year else none,
                   region := if truthy u.region = true then u.region else none })
    ∧ (¬ (truthy u.term = true ∨ truthy u.domain = true ∨ truthy u.tag = true
        ∨ truthy u.year = true ∨ truthy u.region = true)
      → initializeFromLocation u = none) := by
  constructor
  · intro h
    have h2 : (truthy u.term || truthy u.domain || truthy u.tag || truthy u.year
        || truthy u.region) = true := by
      simp only [Bool.or_eq_true]
      tauto
    simp only [initializeFromLocation, hasSearchParams, performInitialSearch, h2, if_true]
    rw [← getD_empty_eq_if, ← orUndefined_eq_if, ← orUndefined_eq_if,
      ← orUndefined_eq_if, ← orUndefined_eq_if]
  · intro h
    have hb : hasSearchParams u = false := by
      rcases Bool.eq_false_or_eq_true (hasSearchParams u) with ht | hf
      · exfalso
        apply h
        simp only [hasSearchParams, Bool.or_eq_true] at ht
        tauto
      · exact hf
    simp [initializeFromLocation, hb]

/-- C5 witness: URL parameters `term=foo&year=2020` trigger a search with
text "foo" and year "2020" and no other filters. -/
theorem initializeFromLocation_exactly_present_witness :
    initializeFromLocation
        { term := some "foo", domain := none, tag := none, year := some "2020", region := none }
      = some { query := "foo", domain := none, tag := none,
               year := some "2020", region := none } := by
  have h :=
    (initializeFromLocation_exactly_present
        { term := some "foo", domain := none, tag := none,
          year := some "2020", region := none }).1
      (Or.inl (by decide))
  exact h.trans (by decide)

/-- A false Boolean is one that is not true. -/
theorem bool_eq_false_iff_not (b : Bool) : b = false ↔ ¬ (b = true) := by
  cases b <;> simp

/-- The `hasSearchParams` guard holds exactly when one of the five
recognized parameters is present in the URL with a non-empty value. -/
theorem hasSearchParams_iff (u : UrlParams) :
    hasSearchParams u = true
      ↔ ((∃ v, u.term = some v ∧ v ≠ "") ∨ (∃ v, u.domain = some v ∧ v ≠ "")
          ∨ (∃ v, u.tag = some v ∧ v ≠ "") ∨ (∃ v, u.year = some v ∧ v ≠ "")
          ∨ (∃ v, u.region = some v ∧ v ≠ "")) := by
  simp only [hasSearchParams, Bool.or_eq_true, truthy_iff, or_assoc]

/-- C6: the centered empty-search layout is active exactly when no search
has ever been performed and none of the five recognized parameters is
present in the URL with a non-empty value; in every other state the compact
layout is shown. -/
theorem showCenteredSearch_iff (s : SearchState) (u : UrlParams) :
    showCenteredSearch s u = true
      ↔ (s.hasSearched = false
          ∧ ¬ ((∃ v, u.term = some v ∧ v ≠ "") ∨ (∃ v, u.domain = some v ∧ v ≠ "")
              ∨ (∃ v, u.tag = some v ∧ v ≠ "") ∨ (∃ v, u.year = some v ∧ v ≠ "")
              ∨ (∃ v, u.region = some v ∧ v ≠ ""))) := by
  have h1 : showCenteredSearch s u = true
      ↔ (s.hasSearched = false ∧ hasSearchParams u = false) := by
    simp [showCenteredSearch]
  rw [h1, bool_eq_false_iff_not (hasSearchParams u), hasSearchParams_iff]

/-- C6 witness: with no prior search and no URL parameters, the centered
layout is shown. -/
theorem showCenteredSearch_iff_witness :
    showCenteredSearch initialState
        { term := none, domain := none, tag := none, year := none, region := none } = true :=
  (showCenteredSearch_iff initialState
      { term := none, domain := none, tag := none, year := none, region := none }).mpr
    ⟨rfl, by simp⟩

/-- C7: the introductory section and the post list are rendered exactly when
the centered layout is active or the results are empty with no search in
flight; in particular any search settling with zero results makes them
visible, whatever state it started from. -/
theorem showIntroAndPosts_iff (s : SearchState) (u : UrlParams) :
    (showIntroAndPosts s u = true
      ↔ (showCenteredSearch s u = true ∨ (s.results = [] ∧ s.isSearching = false)))
    ∧ (∀ s0 : SearchState,
        showIntroAndPosts
            (handleSearchSettle (handleSearchStart s0) (FetchOutcome.success [])) u = true) := by
  constructor
  · simp [showIntroAndPosts, List.length_eq_zero, Bool.not_eq_true']
  · intro s0
    simp [showIntroAndPosts, handleSearchSettle, handleSearchStart]

/-- C7 witness: in the initial state (empty results, not searching) the
intro section and post list are visible. -/
theorem showIntroAndPosts_iff_witness :
    showIntroAndPosts initialState
        { term := some "x", domain := none, tag := none, year := none, region := none } = true :=
  (showIntroAndPosts_iff initialState
      { term := some "x", domain := none, tag := none, year := none, region := none }).1.mpr
    (Or.inr ⟨rfl, rfl⟩)

/-- C8: `hasSearched` starts false on page load, every search attempt sets
it true in its synchronous start phase (and a full `handleSearch` call
leaves it true), and no atomic state update of the component ever takes it
back from true to false. -/
theorem hasSearched_monotone :
    initialState.hasSearched = false
    ∧ (∀ s : SearchState, (handleSearchStart s).hasSearched = true)
    ∧ (∀ (s : PageState) (p : SearchParams) (o : FetchOutcome),
        (handleSearch s p o).search.hasSearched = true)
    ∧ (∀ (s : SearchState) (e : SearchEvent),
        s.hasSearched = true → (applyEvent s e).hasSearched = true) := by
  refine ⟨rfl, fun s => rfl, fun s p o => ?_, fun s e h => ?_⟩
  · rw [handleSearch_eq_events]
    show (handleSearchSettle (handleSearchStart s.search) o).hasSearched = true
    rw [handleSearchSettle_hasSearched]
    rfl
  · cases e with
    | start p => rfl
    | settle o =>
      show (handleSearchSettle s o).hasSearched = true
      rw [handleSearchSettle_hasSearched]
      exact h

/-- C8 witness: after a search attempt settles with a failure, `hasSearched`
is still true, applying monotonicity to the post-start state. -/
theorem hasSearched_monotone_witness :
    (applyEvent (handleSearchStart initialState)
        (SearchEvent.settle FetchOutcome.httpError)).hasSearched = true :=
  hasSearched_monotone.2.2.2 (handleSearchStart initialState)
    (SearchEvent.settle FetchOutcome.httpError)
    (hasSearched_monotone.2.1 initialState)

/-- C9: whenever the atomic updates of two `handleSearch` calls interleave
in any order on the event loop, the state after both calls have settled has
`isSearching` false — it is never left stuck at true, whichever response
resolves last. -/
theorem overlapping_searches_not_stuck
    (s : SearchState) (p1 p2 : SearchParams) (o1 o2 : FetchOutcome) (l : List SearchEvent)
    (h : Interleave [SearchEvent.start p1, SearchEvent.settle o1]
        [SearchEvent.start p2, SearchEvent.settle o2] l) :
    (applyEvents s l).isSearching = false := by
  cases h with
  | left h1 =>
    cases h1 with
    | left h2 =>
      rw [interleave_nil_left h2]
      exact handleSearchSettle_isSearching _ _
    | right h2 =>
      cases h2 with
      | left h3 =>
        rw [interleave_nil_left h3]
        exact handleSearchSettle_isSearching _ _
      | right h3 =>
        rw [interleave_nil_right h3]
        exact handleSearchSettle_isSearching _ _
  | right h1 =>
    cases h1 with
    | left h2 =>
      cases h2 with
      | left h3 =>
        rw [interleave_nil_left h3]
        exact handleSearchSettle_isSearching _ _
      | right h3 =>
        rw [interleave_nil_right h3]
        exact handleSearchSettle_isSearching _ _
    | right h2 =>
      rw [interleave_nil_right h2]
      exact handleSearchSettle_isSearching _ _

/-- C9 witness: two overlapping calls whose starts both run before either
settles (second response resolving last) end with `isSearching` false. -/
theorem overlapping_searches_not_stuck_witness :
    (applyEvents initialState
        [SearchEvent.start { query := "a", domain := none, tag := none, year := none, region := none },
         SearchEvent.start { query := "b", domain := none, tag := none, year := none, region := none },
         SearchEvent.settle (FetchOutcome.success []),
         SearchEvent.settle FetchOutcome.httpError]).isSearching = false :=
  overlapping_searches_not_stuck initialState
    { query := "a", domain := none, tag := none, year := none, region := none }
    { query := "b", domain := none, tag := none, year := none, region := none }
    (FetchOutcome.success []) FetchOutcome.httpError _
    (Interleave.left (Interleave.right (Interleave.left (Interleave.right Interleave.nil))))

/-- C10: the search-results/error panel is mounted exactly when one of the
five recognized parameters is present in the URL with a non-empty value,
independently of the component's search state. -/
theorem resultsPanel_iff_param_present (s t : SearchState) (u : UrlParams) :
    showResultsPanel s u = showResultsPanel t u
    ∧ (showResultsPanel s u = true
        ↔ ((∃ v, u.term = some v ∧ v ≠ "") ∨ (∃ v, u.domain = some v ∧ v ≠ "")
            ∨ (∃ v, u.tag = some v ∧ v ≠ "") ∨ (∃ v, u.year = some v ∧ v ≠ "")
            ∨ (∃ v, u.region = some v ∧ v ≠ ""))) :=
  ⟨rfl, hasSearchParams_iff u⟩

/-- C10 witness: with a domain parameter in the URL, the panel is shown even
in the untouched initial state. -/
theorem resultsPanel_iff_param_present_witness :
    showResultsPanel initialState
        { term := none, domain := some "x", tag := none, year := none, region := none } = true :=
  (resultsPanel_iff_param_present initialState initialState
      { term := none, domain := some "x", tag := none, year := none, region := none }).2.mpr
    (Or.inr (Or.inl ⟨"x", rfl, by decide⟩))
